import Mathlib

/-
Verification of the kellyframework service-handler module (the current
httprouter-based variant: `checkServiceMethodPrototype`,
`checkFileModeMethodPrototype`, `NewServiceHandler`, `parseArgument`,
`doServiceMethodCall`, `ServeHTTPWithParams`, `handleUploadfile`, and
`RegisterFunctionsToHTTPRouter` from utils.go).

The embedding has two layers, mirroring the code:
  * a registration layer over a model of Go reflect types (`GoType`),
    embedding the prototype checks and handler construction;
  * a request-serving layer over abstract requests, embedding argument
    resolution (query string, JSON body, path params, validation), the
    invocation sandbox (panic recovery), response shaping and telemetry.
External collaborators (gorilla/schema, encoding/json, validator.v9, the
multipart reader) are modelled at their interface: each decoding step
either fails with a message or yields the set of fields it populates;
the merging, ordering and error propagation logic is translated from the
source.
-/

namespace Kelly

/- ---------- Go reflect type model ---------- -/

/-- Kinds, mirroring the reflect.Kind values the source inspects. -/
inductive GoKind where
  | func
  | ptr
  | strukt
  | slice
  | iface
  | other
deriving DecidableEq, Repr

/-- A Go type as seen through the reflect calls the source makes:
`Kind()`, `NumIn()`, `NumOut()`, `In(i)`, `Elem()`, `Name()`, `String()`.
`named` carries the unqualified reflect `Name()` and the qualified
`String()` form. -/
inductive GoType where
  | fn (ins : List GoType) (outs : List GoType)
  | ptr (elem : GoType)
  | slice (elem : GoType)
  | named (kind : GoKind) (name : String) (qual : String)
deriving Repr

def GoType.kind : GoType → GoKind
  | .fn _ _ => .func
  | .ptr _ => .ptr
  | .slice _ => .slice
  | .named k _ _ => k

def GoType.numIn : GoType → Nat
  | .fn ins _ => ins.length
  | _ => 0

def GoType.numOut : GoType → Nat
  | .fn _ outs => outs.length
  | _ => 0

/-- reflect `In(0)`; only called by the source after the func-kind and
arity checks, so the default branch is never reached there. -/
def GoType.in0 : GoType → GoType
  | .fn (a :: _) _ => a
  | _ => .named .other "" ""

/-- reflect `In(1)`. -/
def GoType.in1 : GoType → GoType
  | .fn (_ :: b :: _) _ => b
  | _ => .named .other "" ""

/-- reflect `Elem()`; only called on pointer/slice types by the source. -/
def GoType.elem : GoType → GoType
  | .ptr e => e
  | .slice e => e
  | t => t

/-- reflect `Name()`: empty for unnamed composite types. -/
def GoType.name : GoType → String
  | .named _ n _ => n
  | _ => ""

/-- reflect `String()`. -/
def GoType.typeStr : GoType → String
  | .ptr e => "*" ++ e.typeStr
  | .slice e => "[]" ++ e.typeStr
  | .named _ _ q => q
  | .fn _ _ => "func"

/-- The `*ServiceMethodContext` first-argument type. -/
def ctxPtrType : GoType :=
  .ptr (.named .strukt "ServiceMethodContext" "kellyframework.ServiceMethodContext")

/-- The `File` record type. -/
def fileType : GoType := .named .strukt "File" "kellyframework.File"

/-- `reflect.TypeOf(&[]*File{})`, i.e. `*[]*kellyframework.File`. -/
def filesArgType : GoType := .ptr (.slice (.ptr fileType))

/- ---------- registration-time checks ---------- -/

/-- Embeds `checkServiceMethodPrototype` (service_handler.go): the result
is `some errorMessage` exactly when the Go function returns a non-nil
error. -/
def checkServiceMethodPrototype (t : GoType) : Option String :=
  if t.kind ≠ GoKind.func then
    some "you should provide a function or object method"
  else if t.numIn ≠ 2 then
    some "the service method should have two arguments"
  else if t.in0.kind ≠ GoKind.ptr ∨ t.in0.elem.name ≠ "ServiceMethodContext" then
    some "the first argument should be type *ServiceMethodContext"
  else if t.in1.kind ≠ GoKind.ptr ∨
      (t.in1.elem.kind ≠ GoKind.strukt ∧ t.in1.elem.kind ≠ GoKind.slice) then
    some "the second argument should be a struct pointer or array"
  else if t.numOut ≠ 1 then
    some "the service method should have only one return value"
  else
    none

/-- Embeds `checkFileModeMethodPrototype`: compares `In(1).String()` with
`reflect.TypeOf(&[]*File{}).String()`. -/
def checkFileModeMethodPrototype (t : GoType) : Option String :=
  if t.in1.typeStr = filesArgType.typeStr then none
  else some "the second argument must be []*File on the filemode"

/-- The registration-level handler value built by `NewServiceHandler`
(the reflect.Value of the method is represented by its type only at this
layer). -/
structure RegServiceHandler where
  loggerKeySet : Bool
  argType : GoType
  bypassRequestBody : Bool
  bypassResponseBody : Bool
  filemode : Bool
deriving Repr

/-- Embeds `NewServiceHandler` with its named results `(h, err)`.
Note the control flow of the source: `checkFileModeMethodPrototype` is
run unconditionally and its error is stored in the named result `err`,
but the early return is taken only when `filemode` is set; when
`filemode` is false the handler is still constructed while `err`
remains the file-mode error. -/
def NewServiceHandler (t : GoType) (loggerKeySet bypassRequestBody bypassResponseBody filemode : Bool) :
    Option RegServiceHandler × Option String :=
  match checkServiceMethodPrototype t with
  | some e => (none, some e)
  | none =>
    match checkFileModeMethodPrototype t, filemode with
    | some e, true => (none, some e)
    | some e, false =>
      (some ⟨loggerKeySet, t.in1, bypassRequestBody, bypassResponseBody, filemode⟩, some e)
    | none, _ =>
      (some ⟨loggerKeySet, t.in1, bypassRequestBody, bypassResponseBody, filemode⟩, none)

/-- A `Route` from utils.go, with the callable represented by its type. -/
structure Route where
  httpMethod : String
  path : String
  fnType : GoType
  bypassRequestBody : Bool
  bypassResponseBody : Bool
  filemode : Bool
deriving Repr

/-- Embeds `RegisterFunctionsToHTTPRouter`: installs routes in order and
returns the first registration error, installing nothing further. The
installed routes are represented by their (method, path) pairs. -/
def RegisterFunctionsToHTTPRouter (loggerKeySet : Bool) :
    List Route → List (String × String) × Option String
  | [] => ([], none)
  | rt :: rest =>
    match NewServiceHandler rt.fnType loggerKeySet rt.bypassRequestBody rt.bypassResponseBody rt.filemode with
    | (_, some e) => ([], some e)
    | (_, none) =>
      let r := RegisterFunctionsToHTTPRouter loggerKeySet rest
      ((rt.httpMethod, rt.path) :: r.1, r.2)

/- ---------- JSON value model (for encoding/json at this interface) ---------- -/

mutual
/-- A JSON-encodable Go value, as fed to `json.NewEncoder(...).Encode`
and `json.Marshal` by the source. -/
inductive JVal where
  | null : JVal
  | num (n : Int) : JVal
  | str (s : String) : JVal
  | obj (fs : JFields) : JVal
  | arr (xs : JArr) : JVal

/-- Fields of a JSON object, in declaration order. -/
inductive JFields where
  | nil : JFields
  | cons (key : String) (val : JVal) (rest : JFields) : JFields

/-- Elements of a JSON array. -/
inductive JArr where
  | nil : JArr
  | cons (head : JVal) (rest : JArr) : JArr
end

mutual
/-- JSON serialization in the `json.Marshal` wire format (string
escaping is not modelled; no value in this development needs it). -/
def encodeJVal : JVal → String
  | .null => "null"
  | .num n => toString n
  | .str s => "\"" ++ s ++ "\""
  | .obj fs => "\x7b" ++ encodeJFields fs ++ "\x7d"
  | .arr xs => "[" ++ encodeJArr xs ++ "]"

def encodeJFields : JFields → String
  | .nil => ""
  | .cons k v .nil => "\"" ++ k ++ "\":" ++ encodeJVal v
  | .cons k v (.cons k2 v2 rest) =>
    "\"" ++ k ++ "\":" ++ encodeJVal v ++ "," ++ encodeJFields (.cons k2 v2 rest)

def encodeJArr : JArr → String
  | .nil => ""
  | .cons v .nil => encodeJVal v
  | .cons v (.cons v2 rest) => encodeJVal v ++ "," ++ encodeJArr (.cons v2 rest)
end

/-- Field lookup in a JSON object. -/
def JFields.lookupField : JFields → String → Option JVal
  | .nil, _ => none
  | .cons k v rest, key => if k = key then some v else rest.lookupField key

/- ---------- runtime values ---------- -/

/-- The `FormattedResponse` struct (json tags `code`, `msg`, `data`). -/
structure FmtResp where
  code : Int
  msg : String
  data : JVal

/-- JSON encoding of a `FormattedResponse`, per its struct tags. -/
def fmtRespJVal (resp : FmtResp) : JVal :=
  .obj (.cons "code" (.num resp.code) (.cons "msg" (.str resp.msg) (.cons "data" resp.data .nil)))

/-- The `panicStack` struct captured by the sandbox (json tags `panic`,
`stack`). -/
structure PanicStack where
  panicMsg : String
  stack : String

/-- JSON encoding of a `panicStack`, per its struct tags. -/
def panicStackJVal (ps : PanicStack) : JVal :=
  .obj (.cons "panic" (.str ps.panicMsg) (.cons "stack" (.str ps.stack) .nil))

/-- The dynamic interface value `out[0].Interface()` produced by the
callable: nil interface, a typed `*FormattedResponse` (possibly a nil
pointer), a non-nil `error` carrying its message, or any other value. -/
inductive IfaceVal where
  | nilIface : IfaceVal
  | fmtResp (p : Option FmtResp) : IfaceVal
  | errVal (msg : String) : IfaceVal
  | plain (v : JVal) : IfaceVal

/-- The type assertion `methodReturn.(*FormattedResponse)`: succeeds
exactly on a typed `*FormattedResponse` interface value, including a
typed nil pointer; a nil interface fails. -/
def ifaceAsFmtResp : IfaceVal → Option (Option FmtResp)
  | .fmtResp p => some p
  | _ => none

/-- The type assertion `methodReturn.(error)`: succeeds exactly on a
non-nil error value; a nil interface fails. -/
def ifaceAsErr : IfaceVal → Option String
  | .errVal s => some s
  | _ => none

/-- `json.Marshal` view of an interface value reaching the plain branch
(nil interface marshals to null). -/
def ifaceToJVal : IfaceVal → JVal
  | .nilIface => .null
  | .plain v => v
  | .fmtResp (some r) => fmtRespJVal r
  | .fmtResp none => .null
  | .errVal _ => .null

/- ---------- abstract requests and handlers ---------- -/

/-- One multipart part, reduced to the two names the source reads
(`FormName()`, `FileName()`); the content stream is opaque here. -/
structure FilePart where
  formName : String
  fileName : String
deriving DecidableEq, Repr

/-- The request-serving configuration of a `ServiceHandler`, with the
argument struct described by its field names and its `required`
validation tags. -/
structure Handler where
  loggerKeySet : Bool
  argFields : List String
  argRequired : List String
  bypassRequestBody : Bool
  bypassResponseBody : Bool
  filemode : Bool

/-- An abstract request, carrying the verdict of each decoding collaborator:
the fields a source would populate on the argument, or the decode error
it would return. `ctxHasLogger` tells whether `r.Context().Value(key)`
finds a `MethodCallLogger`. -/
structure Req where
  formErr : Option String
  form : List (String × Int)
  formDecodeErr : Option String
  contentTypeJSON : Bool
  bodyDecodeErr : Option String
  body : List (String × Int)
  params : Option (List (String × Int))
  paramsDecodeErr : Option String
  multipartErr : Option String
  parts : List FilePart
  ctxHasLogger : Bool

/-- The bound argument value: a populated record, or the file list in
file-upload mode. -/
inductive ArgVal where
  | record (fields : List (String × Int)) : ArgVal
  | files (fs : List FilePart) : ArgVal

/-- `reflect.New(argType)`: a zeroed record over the declared fields. -/
def zeroRecord (fields : List String) : List (String × Int) :=
  fields.map (fun f => (f, 0))

/-- One decode pass of a codec into an existing argument value: every
declared field present in the source is overwritten, fields absent from
the source keep their current value, unknown source keys are ignored
(`formDecoder.IgnoreUnknownKeys(true)`; encoding/json does likewise). -/
def mergeFields (a src : List (String × Int)) : List (String × Int) :=
  a.map (fun p =>
    match src.lookup p.1 with
    | some v => (p.1, v)
    | none => p)

/-- `url.Values.Set` semantics for the params loop: a later `Set` of the
same key overwrites the earlier one. -/
def setValue (vs : List (String × Int)) (k : String) (v : Int) : List (String × Int) :=
  if vs.any (fun p => p.1 == k) then
    vs.map (fun p => if p.1 == k then (p.1, v) else p)
  else
    vs ++ [(k, v)]

/-- The `paramValues` built from `httprouter.Params` by repeated `Set`. -/
def paramsValues (ps : List (String × Int)) : List (String × Int) :=
  ps.foldl (fun acc p => setValue acc p.1 p.2) []

/-- Modelled at the validator.v9 interface: `validator.Struct` fails on
the first field carrying a `required` tag whose value is still the zero
value, with a message naming that field. -/
def validatorStruct (required : List String) (a : List (String × Int)) : Option String :=
  match required.find? (fun f => ((a.lookup f).getD 0) == 0) with
  | some f => some ("Field validation for " ++ f ++ " failed on the required tag")
  | none => none

/-- Embeds `handleUploadfile`: a multipart-reader fault is returned as
the error; otherwise every part bearing a file name becomes one `File`
record and non-file parts are dropped. -/
def handleUploadfile (r : Req) : Except String (List FilePart) :=
  match r.multipartErr with
  | some e => .error e
  | none => .ok (r.parts.filter (fun p => p.fileName ≠ ""))

/-- The source-merging portion of `parseArgument` (non-file mode):
`r.ParseForm`, query-string decode, JSON body decode when the content
type is JSON and the route does not bypass the body, then path params
decoded last. -/
def mergedArgument (h : Handler) (r : Req) : Except String (List (String × Int)) :=
  match r.formErr with
  | some e => .error e
  | none =>
    match r.formDecodeErr with
    | some e => .error e
    | none =>
      let a1 := mergeFields (zeroRecord h.argFields) r.form
      let step2 : Except String (List (String × Int)) :=
        if ¬h.bypassRequestBody ∧ r.contentTypeJSON then
          match r.bodyDecodeErr with
          | some e => .error e
          | none => .ok (mergeFields a1 r.body)
        else
          .ok a1
      match step2 with
      | .error e => .error e
      | .ok a2 =>
        match r.params with
        | none => .ok a2
        | some ps =>
          match r.paramsDecodeErr with
          | some e => .error e
          | none => .ok (mergeFields a2 (paramsValues ps))

/-- Embeds `parseArgument`: the file-upload path replaces the whole
pipeline; otherwise the merged argument is validated. -/
def parseArgument (h : Handler) (r : Req) : Except String ArgVal :=
  if h.filemode then
    match handleUploadfile r with
    | .error e => .error e
    | .ok fs => .ok (.files fs)
  else
    match mergedArgument h r with
    | .error e => .error e
    | .ok a =>
      match validatorStruct h.argRequired a with
      | some e => .error e
      | none => .ok (.record a)

/- ---------- invocation sandbox ---------- -/

/-- What the registered callable does on a given argument. -/
inductive CallResult where
  | panics (description : String) : CallResult
  | returns (v : IfaceVal) : CallResult

/-- Embeds `doServiceMethodCall`: the deferred `recover` turns a panic
into a `panicStack` built from the panic description and the
`debug.Stack()` snapshot; a normal return passes the single output
through. -/
def doServiceMethodCall (m : ArgVal → CallResult) (arg : ArgVal) (stackSnap : String) :
    Option IfaceVal × Option PanicStack :=
  match m arg with
  | .panics d => (none, some ⟨d, stackSnap⟩)
  | .returns v => (some v, none)

/- ---------- response shaping and telemetry ---------- -/

/-- One response write: `writeFormattedResponse` (sets headers, writes
the status, encodes the envelope) or `writeResponse` (sets headers,
encodes the data; the transport defaults the status to 200). -/
inductive WriteEvent where
  | formatted (resp : FmtResp) : WriteEvent
  | plain (data : JVal) : WriteEvent

/-- The HTTP status a write produces. -/
def writeStatus : WriteEvent → Int
  | .formatted resp => resp.code
  | .plain _ => 200

/-- The `respData` variable of `ServeHTTPWithParams` as it stands when
the telemetry block runs. -/
inductive RespView where
  | noneV : RespView
  | fmtP (p : Option FmtResp) : RespView
  | plainV (v : IfaceVal) : RespView

/-- `json.Marshal(respData)`. -/
def marshalResp : RespView → String
  | .noneV => "null"
  | .fmtP none => "null"
  | .fmtP (some r) => encodeJVal (fmtRespJVal r)
  | .plainV v => encodeJVal (ifaceToJVal v)

/-- `json.Marshal(arg.Interface())` (the opaque file content stream
marshals as an empty object). -/
def argToJVal : ArgVal → JVal
  | .record fs =>
    .obj ((fs.map (fun p => (p.1, JVal.num p.2))).foldr
      (fun p acc => JFields.cons p.1 p.2 acc) .nil)
  | .files fs =>
    .arr (fs.foldr
      (fun f acc => JArr.cons
        (.obj (.cons "FormName" (.str f.formName)
          (.cons "FileName" (.str f.fileName) (.cons "Content" (.obj .nil) .nil)))) acc) .nil)

/-- The result-classification branch of `ServeHTTPWithParams`: produces
the response writes performed and the final `respData`. Branch order is
the source order: captured panic, `*FormattedResponse` assertion (a nil
pointer envelope writes nothing), `error` assertion, then the plain
branch guarded by `bypassResponseBody`. -/
def shapeResponse (h : Handler) (out : Option IfaceVal) (ps : Option PanicStack) :
    List WriteEvent × RespView :=
  match ps with
  | some p =>
    ([.formatted ⟨500, "service method panicked", panicStackJVal p⟩],
      .fmtP (some ⟨500, "service method panicked", panicStackJVal p⟩))
  | none =>
    match out with
    | none => ([], .noneV)
    | some v =>
      match ifaceAsFmtResp v with
      | some p =>
        (match p with
          | some resp => [.formatted resp]
          | none => [], .fmtP p)
      | none =>
        match ifaceAsErr v with
        | some s =>
          ([.formatted ⟨500, "service method error", .str s⟩],
            .fmtP (some ⟨500, "service method error", .str s⟩))
        | none =>
          if h.bypassResponseBody then ([], .noneV)
          else ([.plain (ifaceToJVal v)], .plainV v)

/-- How handling a request ends: normally, or with a panic escaping
`ServeHTTPWithParams` itself. -/
inductive Outcome where
  | normal : Outcome
  | panicked (description : String) : Outcome

/-- The Go runtime message for asserting a nil context value to
`MethodCallLogger`. -/
def loggerPanicMsg : String :=
  "interface conversion: interface is nil, not kellyframework.MethodCallLogger"

/-- The telemetry block: when a logger context key is configured, the
context value is asserted to `MethodCallLogger` (panicking when the
context carries none), then four records are made. -/
def telemetryStep (h : Handler) (r : Req) (arg : ArgVal) (resp : RespView)
    (beginTime durStr : String) : List (String × String) × Outcome :=
  if h.loggerKeySet then
    if r.ctxHasLogger then
      ([("methodCallArgument", encodeJVal (argToJVal arg)),
        ("methodCallResponseData", marshalResp resp),
        ("methodCallBeginTime", beginTime),
        ("methodCallDuration", durStr)], .normal)
    else
      ([], .panicked loggerPanicMsg)
  else
    ([], .normal)

/-- Everything observable about one request. -/
structure ServeResult where
  writes : List WriteEvent
  methodCalled : Bool
  telemetry : List (String × String)
  outcome : Outcome

/-- Embeds `ServeHTTPWithParams`: argument resolution (a failure writes
one 400 envelope and returns), the sandboxed call, response shaping,
then telemetry. The `len(out) != 1` guard of the source cannot fire
here because a registered method has exactly one output. -/
def ServeHTTPWithParams (h : Handler) (m : ArgVal → CallResult) (r : Req)
    (stackSnap beginTime durStr : String) : ServeResult :=
  match parseArgument h r with
  | .error e =>
    ⟨[.formatted ⟨400, "parse argument failed", .str e⟩], false, [], .normal⟩
  | .ok arg =>
    let call := doServiceMethodCall m arg stackSnap
    let shaped := shapeResponse h call.1 call.2
    let tele := telemetryStep h r arg shaped.2 beginTime durStr
    ⟨shaped.1, true, tele.1, tele.2⟩

/- ---------- lemmas about field merging ---------- -/

theorem lookup_zeroRecord {fields : List String} {f : String} (hf : f ∈ fields) :
    (zeroRecord fields).lookup f = some 0 := by
  induction fields with
  | nil => simp at hf
  | cons a t ih =>
    rcases List.mem_cons.mp hf with h | h
    · subst h
      simp [zeroRecord, List.lookup]
    · by_cases hfa : f = a
      · subst hfa
        simp [zeroRecord, List.lookup]
      · have hb : (f == a) = false := beq_eq_false_iff_ne.mpr hfa
        simpa [zeroRecord, List.lookup, hb] using ih h

theorem lookup_mergeFields (a src : List (String × Int)) (k : String) :
    (mergeFields a src).lookup k =
      match a.lookup k, src.lookup k with
      | none, _ => none
      | some v, none => some v
      | some _, some w => some w := by
  induction a with
  | nil => simp [mergeFields]
  | cons p t ih =>
    by_cases h : k = p.1
    · cases hs : src.lookup p.1 <;>
        simp [mergeFields, List.lookup, h, hs] at ih ⊢
    · have hb : (k == p.1) = false := beq_eq_false_iff_ne.mpr h
      cases hs : src.lookup p.1 <;>
        simpa [mergeFields, List.lookup, hb, hs] using ih

/- ---------- claims ---------- -/

/-- C1: in non-file-upload mode, during argument resolution a field
present in the query string, the JSON body and the path-pattern params
simultaneously resolves to the path-pattern value, and a field present
only in the query string and the JSON body resolves to the body
value. -/
theorem claim_C1_precedence (h : Handler) (r : Req) (ps : List (String × Int))
    (f g : String) (qv bv pv qv2 bv2 : Int)
    (_hfm : h.filemode = false) (hbp : h.bypassRequestBody = false)
    (hfe : r.formErr = none) (hfd : r.formDecodeErr = none)
    (hct : r.contentTypeJSON = true) (hbd : r.bodyDecodeErr = none)
    (hps : r.params = some ps) (hpd : r.paramsDecodeErr = none)
    (hf : f ∈ h.argFields) (hg : g ∈ h.argFields)
    (hfq : r.form.lookup f = some qv) (hfb : r.body.lookup f = some bv)
    (hfp : (paramsValues ps).lookup f = some pv)
    (hgq : r.form.lookup g = some qv2) (hgb : r.body.lookup g = some bv2)
    (hgp : (paramsValues ps).lookup g = none) :
    ∃ a, mergedArgument h r = .ok a ∧ a.lookup f = some pv ∧ a.lookup g = some bv2 := by
  refine ⟨mergeFields (mergeFields (mergeFields (zeroRecord h.argFields) r.form) r.body)
    (paramsValues ps), ?_, ?_, ?_⟩
  · simp [mergedArgument, hfe, hfd, hbp, hct, hbd, hps, hpd]
  · simp [lookup_mergeFields, lookup_zeroRecord hf, hfq, hfb, hfp]
  · simp [lookup_mergeFields, lookup_zeroRecord hg, hgq, hgb, hgp]

/-- C1 witness: a concrete request carrying field `a` in all three
sources and field `b` only in query string and body. -/
theorem claim_C1_precedence_witness :
    (paramsValues [("a", 9)]).lookup "b" = none ∧
    ∃ a,
      mergedArgument
        ⟨false, ["a", "b"], [], false, false, false⟩
        ⟨none, [("a", 1), ("b", 2)], none, true, none, [("a", 5), ("b", 6)],
          some [("a", 9)], none, none, [], false⟩ = .ok a ∧
      a.lookup "a" = some 9 ∧ a.lookup "b" = some 6 :=
  ⟨by decide,
    claim_C1_precedence
      ⟨false, ["a", "b"], [], false, false, false⟩
      ⟨none, [("a", 1), ("b", 2)], none, true, none, [("a", 5), ("b", 6)],
        some [("a", 9)], none, none, [], false⟩
      [("a", 9)] "a" "b" 1 5 9 2 6
      rfl rfl rfl rfl rfl rfl rfl rfl (by decide) (by decide)
      rfl rfl (by decide) rfl rfl (by decide)⟩

/-- C2: a request whose argument resolution fails is answered with
exactly one 400 envelope carrying the failure text, the callable is not
invoked and no telemetry record is made. -/
theorem claim_C2_binding_failure (h : Handler) (m : ArgVal → CallResult) (r : Req)
    (s bt du e : String) (hp : parseArgument h r = .error e) :
    ServeHTTPWithParams h m r s bt du =
      ⟨[.formatted ⟨400, "parse argument failed", .str e⟩], false, [], .normal⟩ := by
  simp [ServeHTTPWithParams, hp]

/-- C2 witness: a syntactically invalid JSON body on a structured-body
route. -/
theorem claim_C2_binding_failure_witness :
    parseArgument ⟨true, ["a"], [], false, false, false⟩
      ⟨none, [], none, true, some "invalid character", [], none, none, none, [], false⟩ =
      .error "invalid character" ∧
    ServeHTTPWithParams ⟨true, ["a"], [], false, false, false⟩
      (fun _ => .returns .nilIface)
      ⟨none, [], none, true, some "invalid character", [], none, none, none, [], false⟩
      "stack" "t0" "0" =
      ⟨[.formatted ⟨400, "parse argument failed", .str "invalid character"⟩], false, [], .normal⟩ :=
  ⟨rfl,
    claim_C2_binding_failure ⟨true, ["a"], [], false, false, false⟩
      (fun _ => .returns .nilIface)
      ⟨none, [], none, true, some "invalid character", [], none, none, none, [], false⟩
      "stack" "t0" "0" "invalid character" rfl⟩

/-- C3: a panic in the callable is recovered at the sandbox boundary as
a structured value holding the panic description and the stack
snapshot; the request is answered with a 500 envelope whose diagnostic
payload is non-empty, and the handler finishes normally so the host
keeps serving. -/
theorem claim_C3_panic_recovery (h : Handler) (m : ArgVal → CallResult) (r : Req)
    (arg : ArgVal) (d stackSnap bt du : String)
    (hp : parseArgument h r = .ok arg) (hm : m arg = .panics d)
    (hlog : h.loggerKeySet = true → r.ctxHasLogger = true) :
    doServiceMethodCall m arg stackSnap = (none, some ⟨d, stackSnap⟩)
    ∧ (ServeHTTPWithParams h m r stackSnap bt du).writes =
        [.formatted ⟨500, "service method panicked", panicStackJVal ⟨d, stackSnap⟩⟩]
    ∧ panicStackJVal ⟨d, stackSnap⟩ ≠ JVal.null
    ∧ (ServeHTTPWithParams h m r stackSnap bt du).outcome = .normal := by
  refine ⟨by simp [doServiceMethodCall, hm], ?_, by simp [panicStackJVal], ?_⟩
  · simp [ServeHTTPWithParams, hp, doServiceMethodCall, hm, shapeResponse]
  · by_cases hl : h.loggerKeySet = true
    · simp [ServeHTTPWithParams, hp, doServiceMethodCall, hm, shapeResponse,
        telemetryStep, hl, hlog hl]
    · simp [ServeHTTPWithParams, hp, doServiceMethodCall, hm, shapeResponse,
        telemetryStep, hl]

/-- C3 witness: a concrete panicking callable. -/
theorem claim_C3_panic_recovery_witness :
    (fun _ : ArgVal => CallResult.panics "expected panic") (.record [("a", 0)]) =
      .panics "expected panic" ∧
    (ServeHTTPWithParams ⟨false, ["a"], [], false, false, false⟩
      (fun _ => .panics "expected panic")
      ⟨none, [], none, true, none, [], none, none, none, [], false⟩
      "goroutine 1" "t0" "0").writes =
      [.formatted ⟨500, "service method panicked",
        panicStackJVal ⟨"expected panic", "goroutine 1"⟩⟩] :=
  ⟨rfl,
    (claim_C3_panic_recovery ⟨false, ["a"], [], false, false, false⟩
      (fun _ => .panics "expected panic")
      ⟨none, [], none, true, none, [], none, none, none, [], false⟩
      (.record [("a", 0)]) "expected panic" "goroutine 1" "t0" "0"
      rfl rfl (fun hx => by simp at hx)).2.1⟩

/-- Field lookup on an encoded JSON object. -/
def jsonField (v : JVal) (k : String) : Option JVal :=
  match v with
  | .obj fs => fs.lookupField k
  | _ => none

/-- C4: a callable returning a non-nil `*FormattedResponse` with code
403 has it re-emitted verbatim — the write carries HTTP status exactly
403 and its JSON body has `code` 403 — because the envelope assertion
is tried before the error assertion. -/
theorem claim_C4_custom_envelope (h : Handler) (m : ArgVal → CallResult) (r : Req)
    (arg : ArgVal) (resp : FmtResp) (s bt du : String)
    (hp : parseArgument h r = .ok arg) (hm : m arg = .returns (.fmtResp (some resp)))
    (hc : resp.code = 403) :
    (ServeHTTPWithParams h m r s bt du).writes = [.formatted resp]
    ∧ writeStatus (.formatted resp) = 403
    ∧ jsonField (fmtRespJVal resp) "code" = some (.num 403) := by
  refine ⟨?_, by simp [writeStatus, hc], ?_⟩
  · simp [ServeHTTPWithParams, hp, doServiceMethodCall, hm, shapeResponse, ifaceAsFmtResp]
  · simp [jsonField, fmtRespJVal, JFields.lookupField, hc]

/-- C4 witness: the `errorResponseMethod` scenario from the repository
tests, returning `FormattedResponse 403 forbidden nil`. -/
theorem claim_C4_custom_envelope_witness :
    (ServeHTTPWithParams ⟨false, [], [], false, false, false⟩
      (fun _ => .returns (.fmtResp (some ⟨403, "forbidden", .null⟩)))
      ⟨none, [], none, true, none, [], none, none, none, [], false⟩
      "stack" "t0" "0").writes = [.formatted ⟨403, "forbidden", .null⟩]
    ∧ jsonField (fmtRespJVal ⟨403, "forbidden", .null⟩) "code" = some (.num 403) :=
  ⟨(claim_C4_custom_envelope ⟨false, [], [], false, false, false⟩
      (fun _ => .returns (.fmtResp (some ⟨403, "forbidden", .null⟩)))
      ⟨none, [], none, true, none, [], none, none, none, [], false⟩
      (.record []) ⟨403, "forbidden", .null⟩ "stack" "t0" "0"
      rfl rfl rfl).1,
    (claim_C4_custom_envelope ⟨false, [], [], false, false, false⟩
      (fun _ => .returns (.fmtResp (some ⟨403, "forbidden", .null⟩)))
      ⟨none, [], none, true, none, [], none, none, none, [], false⟩
      (.record []) ⟨403, "forbidden", .null⟩ "stack" "t0" "0"
      rfl rfl rfl).2.2⟩

/-- C10: a callable returning a typed nil `*FormattedResponse` causes no
response write at all, even on a route that does not bypass
response-body shaping, and the telemetry response-data record is the
JSON string null. -/
theorem claim_C10_typed_nil_envelope (h : Handler) (m : ArgVal → CallResult) (r : Req)
    (arg : ArgVal) (s bt du : String)
    (hp : parseArgument h r = .ok arg) (hm : m arg = .returns (.fmtResp none))
    (_hbr : h.bypassResponseBody = false)
    (hlk : h.loggerKeySet = true) (hcl : r.ctxHasLogger = true) :
    (ServeHTTPWithParams h m r s bt du).writes = []
    ∧ (ServeHTTPWithParams h m r s bt du).telemetry.lookup "methodCallResponseData" =
        some "null" := by
  constructor
  · simp [ServeHTTPWithParams, hp, doServiceMethodCall, hm, shapeResponse, ifaceAsFmtResp]
  · simp [ServeHTTPWithParams, hp, doServiceMethodCall, hm, shapeResponse, ifaceAsFmtResp,
      telemetryStep, hlk, hcl, marshalResp, List.lookup]

/-- C10 witness: a concrete typed-nil envelope return with telemetry
configured. -/
theorem claim_C10_typed_nil_envelope_witness :
    (ServeHTTPWithParams ⟨true, [], [], false, false, false⟩
      (fun _ => .returns (.fmtResp none))
      ⟨none, [], none, true, none, [], none, none, none, [], true⟩
      "stack" "t0" "0").writes = []
    ∧ (ServeHTTPWithParams ⟨true, [], [], false, false, false⟩
      (fun _ => .returns (.fmtResp none))
      ⟨none, [], none, true, none, [], none, none, none, [], true⟩
      "stack" "t0" "0").telemetry.lookup "methodCallResponseData" = some "null" :=
  claim_C10_typed_nil_envelope ⟨true, [], [], false, false, false⟩
    (fun _ => .returns (.fmtResp none))
    ⟨none, [], none, true, none, [], none, none, none, [], true⟩
    (.record []) "stack" "t0" "0" rfl rfl rfl rfl rfl

/- ---------- registration claims ---------- -/

/-- The signature class actually accepted by the prototype check: two
inputs — `*ServiceMethodContext`, then a pointer to a struct or slice —
and exactly one output of any type. -/
def acceptedSignature (t : GoType) : Prop :=
  t.kind = GoKind.func ∧ t.numIn = 2 ∧
  t.in0.kind = GoKind.ptr ∧ t.in0.elem.name = "ServiceMethodContext" ∧
  t.in1.kind = GoKind.ptr ∧
  (t.in1.elem.kind = GoKind.strukt ∨ t.in1.elem.kind = GoKind.slice) ∧
  t.numOut = 1

instance (t : GoType) : Decidable (acceptedSignature t) := by
  unfold acceptedSignature; infer_instance

theorem checkServiceMethodPrototype_eq_none_iff (t : GoType) :
    checkServiceMethodPrototype t = none ↔ acceptedSignature t := by
  unfold checkServiceMethodPrototype acceptedSignature
  split_ifs with h1 h2 h3 h4 h5 <;> simp_all <;> tauto

/-- A candidate callable of the shape the claim scenario uses:
`func(*ServiceMethodContext, *Args) (*Result, error)`. -/
def twoOutputFnType : GoType :=
  .fn [ctxPtrType, .ptr (.named .strukt "Args" "main.Args")]
    [.ptr (.named .strukt "Result" "main.Result"), .named .iface "error" "error"]

/-- The same callable with a single output:
`func(*ServiceMethodContext, *Args) *Result`. -/
def oneOutputFnType : GoType :=
  .fn [ctxPtrType, .ptr (.named .strukt "Args" "main.Args")]
    [.ptr (.named .strukt "Result" "main.Result")]

/-- C5 counterexample: a callable with two outputs whose last output is
the error interface — accepted by the claim — is rejected by the code,
and no route is installed for it. -/
theorem claim_C5_registration_ce :
    NewServiceHandler twoOutputFnType false false false false =
      (none, some "the service method should have only one return value")
    ∧ RegisterFunctionsToHTTPRouter false [⟨"POST", "/f", twoOutputFnType, false, false, false⟩] =
      ([], some "the service method should have only one return value") :=
  ⟨rfl, rfl⟩

/-- C5 amended: with file-upload mode disabled, `NewServiceHandler`
constructs a handler exactly for callables with two inputs —
`*ServiceMethodContext`, then a pointer to a struct or slice — and
exactly one output of any type; for every other signature it returns a
descriptive error, constructs no handler, and
`RegisterFunctionsToHTTPRouter` installs no route. -/
theorem claim_C5_registration_amended (t : GoType) (lk brb bpb : Bool) :
    (((NewServiceHandler t lk brb bpb false).1 ≠ none) ↔ acceptedSignature t)
    ∧ (¬acceptedSignature t →
        (NewServiceHandler t lk brb bpb false).1 = none
        ∧ (NewServiceHandler t lk brb bpb false).2 ≠ none
        ∧ RegisterFunctionsToHTTPRouter lk [⟨"POST", "/f", t, brb, bpb, false⟩] =
            ([], (NewServiceHandler t lk brb bpb false).2)) := by
  have hiff := checkServiceMethodPrototype_eq_none_iff t
  cases hc : checkServiceMethodPrototype t with
  | some e =>
    rw [hc] at hiff
    have hna : ¬acceptedSignature t := fun ha => Option.noConfusion (hiff.mpr ha)
    refine ⟨?_, fun _ => ?_⟩
    · simp [NewServiceHandler, hc, hna]
    · simp [NewServiceHandler, RegisterFunctionsToHTTPRouter, hc]
  | none =>
    rw [hc] at hiff
    have ha : acceptedSignature t := hiff.mp rfl
    refine ⟨?_, fun hna => absurd ha hna⟩
    cases hf : checkFileModeMethodPrototype t <;> simp [NewServiceHandler, hc, hf, ha]

/-- C5 amended witness: the two-output callable is outside the accepted
class, so no handler is constructed and an error is reported. -/
theorem claim_C5_registration_amended_witness :
    (NewServiceHandler twoOutputFnType false false false false).1 = none
    ∧ (NewServiceHandler twoOutputFnType false false false false).2 ≠ none :=
  ⟨((claim_C5_registration_amended twoOutputFnType false false false).2 (by decide)).1,
    ((claim_C5_registration_amended twoOutputFnType false false false).2 (by decide)).2.1⟩

/-- C6 counterexample: the claim registers
`f(ctx, *Args (with field A int, required)) (*Result, error)`, but the
prototype check rejects every two-output callable, so the claimed
request/response behaviour cannot occur for it. -/
theorem claim_C6_scenario_ce :
    checkServiceMethodPrototype twoOutputFnType =
      some "the service method should have only one return value" :=
  rfl

/-- C6 amended: for the single-output method
`f(ctx, *Args (with field A int, required)) *Result` (the shape this code
accepts), a request with empty JSON body and no query or path
parameters yields one 400 write whose payload names field A, and a
request whose body sets A to 1 yields one 200 write carrying the
result of the callable serialized directly as the response body (not wrapped
under a `data` field). -/
theorem claim_C6_scenario_amended :
    checkServiceMethodPrototype oneOutputFnType = none
    ∧ (ServeHTTPWithParams ⟨false, ["A"], ["A"], false, false, false⟩
        (fun _ => .returns (.plain (.obj (.cons "value" (.num 42) .nil))))
        ⟨none, [], none, true, none, [], none, none, none, [], false⟩ "s" "t" "d").writes =
        [.formatted ⟨400, "parse argument failed",
          .str ("Field validation for " ++ "A" ++ " failed on the required tag")⟩]
    ∧ (ServeHTTPWithParams ⟨false, ["A"], ["A"], false, false, false⟩
        (fun _ => .returns (.plain (.obj (.cons "value" (.num 42) .nil))))
        ⟨none, [], none, true, none, [("A", 1)], none, none, none, [], false⟩ "s" "t" "d").writes =
        [.plain (.obj (.cons "value" (.num 42) .nil))]
    ∧ writeStatus (.plain (.obj (.cons "value" (.num 42) .nil))) = 200 :=
  ⟨rfl, rfl, rfl, rfl⟩

theorem filesArgType_typeStr : filesArgType.typeStr = "*[]*kellyframework.File" := rfl

/-- C7: with file-upload mode enabled, registration succeeds only when
the second argument type is exactly `*[]*File`; for any other argument
shape `NewServiceHandler` returns an error and constructs no handler. -/
theorem claim_C7_filemode_registration (t : GoType) (lk brb bpb : Bool) :
    ((NewServiceHandler t lk brb bpb true).2 = none →
      t.in1.typeStr = "*[]*kellyframework.File")
    ∧ (t.in1.typeStr ≠ "*[]*kellyframework.File" →
        (NewServiceHandler t lk brb bpb true).1 = none
        ∧ (NewServiceHandler t lk brb bpb true).2 ≠ none) := by
  cases hc : checkServiceMethodPrototype t with
  | some e =>
    refine ⟨fun hs => ?_, fun _ => ?_⟩ <;> simp [NewServiceHandler, hc] at *
  | none =>
    by_cases ht : t.in1.typeStr = "*[]*kellyframework.File"
    · have hfile : checkFileModeMethodPrototype t = none := by
        simp [checkFileModeMethodPrototype, filesArgType_typeStr, ht]
      exact ⟨fun _ => ht, fun hne => absurd ht hne⟩
    · have hfile : checkFileModeMethodPrototype t =
          some "the second argument must be []*File on the filemode" := by
        simp [checkFileModeMethodPrototype, filesArgType_typeStr, ht]
      refine ⟨fun hs => ?_, fun _ => ?_⟩ <;> simp [NewServiceHandler, hc, hfile] at *

/-- C7 witness: enabling file-upload mode for a struct-pointer argument
fails and constructs no handler. -/
theorem claim_C7_filemode_registration_witness :
    (NewServiceHandler oneOutputFnType false false false true).1 = none
    ∧ (NewServiceHandler oneOutputFnType false false false true).2 ≠ none :=
  (claim_C7_filemode_registration oneOutputFnType false false false).2 (by decide)

/- ---------- response-write counting ---------- -/

/-- The condition under which `ServeHTTPWithParams` performs no response
write at all: resolution succeeded and the call produced neither a
panic, a non-nil envelope, nor an error — and the return was a typed
nil envelope, or the route bypasses response-body shaping. -/
def zeroWriteCond (h : Handler) (m : ArgVal → CallResult) (r : Req) : Bool :=
  match parseArgument h r with
  | .error _ => false
  | .ok arg =>
    match m arg with
    | .panics _ => false
    | .returns v =>
      match ifaceAsFmtResp v with
      | some (some _) => false
      | some none => true
      | none =>
        match ifaceAsErr v with
        | some _ => false
        | none => h.bypassResponseBody

/-- C8 counterexample: a request handled end to end (the callable runs)
with zero response writes — the callable returns a typed nil
`*FormattedResponse`. -/
theorem claim_C8_single_write_ce :
    (ServeHTTPWithParams ⟨false, [], [], false, false, false⟩
      (fun _ => .returns (.fmtResp none))
      ⟨none, [], none, false, none, [], none, none, none, [], false⟩
      "s" "t" "d").writes = []
    ∧ (ServeHTTPWithParams ⟨false, [], [], false, false, false⟩
      (fun _ => .returns (.fmtResp none))
      ⟨none, [], none, false, none, [], none, none, none, [], false⟩
      "s" "t" "d").methodCalled = true :=
  ⟨rfl, rfl⟩

/-- C8 amended: the Response Shaper performs at most one response write
per request — exactly one of the binding-failure, panic, envelope,
declared-error or success-body writes — except that no write at all
occurs when the callable returns a typed nil envelope or the route
bypasses response-body shaping on a plain return. -/
theorem claim_C8_single_write_amended (h : Handler) (m : ArgVal → CallResult) (r : Req)
    (s bt du : String) :
    (ServeHTTPWithParams h m r s bt du).writes.length ≤ 1
    ∧ ((ServeHTTPWithParams h m r s bt du).writes = [] ↔ zeroWriteCond h m r = true) := by
  cases hp : parseArgument h r with
  | error e => simp [ServeHTTPWithParams, zeroWriteCond, hp]
  | ok arg =>
    cases hm : m arg with
    | panics d =>
      simp [ServeHTTPWithParams, zeroWriteCond, hp, hm, doServiceMethodCall, shapeResponse]
    | returns v =>
      cases v with
      | nilIface =>
        cases hb : h.bypassResponseBody <;>
          simp [ServeHTTPWithParams, zeroWriteCond, hp, hm, doServiceMethodCall,
            shapeResponse, ifaceAsFmtResp, ifaceAsErr, hb]
      | fmtResp p =>
        cases p <;>
          simp [ServeHTTPWithParams, zeroWriteCond, hp, hm, doServiceMethodCall,
            shapeResponse, ifaceAsFmtResp]
      | errVal s2 =>
        simp [ServeHTTPWithParams, zeroWriteCond, hp, hm, doServiceMethodCall,
          shapeResponse, ifaceAsFmtResp, ifaceAsErr]
      | plain v2 =>
        cases hb : h.bypassResponseBody <;>
          simp [ServeHTTPWithParams, zeroWriteCond, hp, hm, doServiceMethodCall,
            shapeResponse, ifaceAsFmtResp, ifaceAsErr, hb]

/- ---------- telemetry-panic claims ---------- -/

/-- C9 counterexample: a request whose argument resolution fails, served
by a handler with a logger key and a context carrying no logger value,
finishes normally — telemetry is skipped, no panic occurs. -/
theorem claim_C9_missing_logger_ce :
    (ServeHTTPWithParams ⟨true, ["a"], [], false, false, false⟩
      (fun _ => .returns .nilIface)
      ⟨some "bad form", [], none, false, none, [], none, none, none, [], false⟩
      "s" "t" "d").outcome = Outcome.normal :=
  rfl

/-- C9 amended: for every request that passes argument resolution,
served by a handler with a non-nil logger context key whose request
context carries no value under that key, `ServeHTTPWithParams` panics
on the interface assertion during the telemetry step — after response
shaping — instead of silently skipping telemetry. -/
theorem claim_C9_missing_logger_amended (h : Handler) (m : ArgVal → CallResult) (r : Req)
    (arg : ArgVal) (s bt du : String)
    (hp : parseArgument h r = .ok arg)
    (hlk : h.loggerKeySet = true) (hcl : r.ctxHasLogger = false) :
    (ServeHTTPWithParams h m r s bt du).outcome = .panicked loggerPanicMsg
    ∧ (ServeHTTPWithParams h m r s bt du).telemetry = [] := by
  constructor <;> simp [ServeHTTPWithParams, hp, telemetryStep, hlk, hcl]

/-- C9 amended witness: a concrete well-formed request on such a
handler. -/
theorem claim_C9_missing_logger_amended_witness :
    parseArgument ⟨true, [], [], false, false, false⟩
      ⟨none, [], none, false, none, [], none, none, none, [], false⟩ = .ok (.record [])
    ∧ (ServeHTTPWithParams ⟨true, [], [], false, false, false⟩
      (fun _ => .returns .nilIface)
      ⟨none, [], none, false, none, [], none, none, none, [], false⟩
      "s" "t" "d").outcome = .panicked loggerPanicMsg :=
  ⟨rfl,
    (claim_C9_missing_logger_amended ⟨true, [], [], false, false, false⟩
      (fun _ => .returns .nilIface)
      ⟨none, [], none, false, none, [], none, none, none, [], false⟩
      (.record []) "s" "t" "d" rfl rfl rfl).1⟩

end Kelly
